import Mathlib

/-!
Shallow embedding of the specification-resolution, optimization-pipeline,
error-position and server-startup code of the verifier, together with
theorems settling the spec's claims about them.

Identifiers such as `DefId`, `SubstsRef`, spans and error contexts are
opaque keys in the original code (compared only for equality), so they are
embedded as natural numbers.
-/

namespace Spec2Proof

/-! ## Specification resolver queries
(`prusti-viper/src/encoder/mir/specifications/interface.rs`) -/

abbrev DefId := Nat

abbrev SubstsRef := Nat

/-- Query payload for call-site encoding; mirrors the Rust struct
`FunctionCallEncodingQuery` with fields `called_def_id`, `caller_def_id`,
`call_substs`. Equality is the derived structural equality. -/
structure FunctionCallEncodingQuery where
  called_def_id : DefId
  caller_def_id : DefId
  call_substs : SubstsRef
deriving DecidableEq, Repr

/-- The four query kinds of `SpecQuery`; mirrors the Rust enum. Equality is
the derived structural equality used as the cache key. -/
inductive SpecQuery where
  | FunctionDefEncoding (def_id : DefId) (substs : SubstsRef)
  | FunctionCallEncoding (query : FunctionCallEncodingQuery)
  | PureOrTrustedCheck (def_id : DefId) (substs : SubstsRef)
  | FetchSpan (def_id : DefId)
deriving DecidableEq, Repr

/-- `SpecQuery::referred_def_id`. -/
def SpecQuery.referred_def_id : SpecQuery → DefId
  | .FunctionDefEncoding def_id _ => def_id
  | .FunctionCallEncoding query => query.called_def_id
  | .PureOrTrustedCheck def_id _ => def_id
  | .FetchSpan def_id => def_id

/-- `SpecQuery::adapt_to`. -/
def SpecQuery.adapt_to : SpecQuery → DefId → SubstsRef → SpecQuery
  | .FunctionDefEncoding _ _, new_def_id, new_substs =>
      .FunctionDefEncoding new_def_id new_substs
  | .FunctionCallEncoding query, new_def_id, new_substs =>
      .FunctionCallEncoding
        { called_def_id := new_def_id
          caller_def_id := query.caller_def_id
          call_substs := new_substs }
  | .PureOrTrustedCheck _ _, new_def_id, new_substs =>
      .PureOrTrustedCheck new_def_id new_substs
  | .FetchSpan _, new_def_id, _ =>
      .FetchSpan new_def_id

/-- The tag (constructor) of a query, i.e. its "query kind". -/
inductive QueryKind where
  | functionDefEncoding
  | functionCallEncoding
  | pureOrTrustedCheck
  | fetchSpan
deriving DecidableEq, Repr

/-- Which of the four kinds a query has. -/
def SpecQuery.kind : SpecQuery → QueryKind
  | .FunctionDefEncoding _ _ => .functionDefEncoding
  | .FunctionCallEncoding _ => .functionCallEncoding
  | .PureOrTrustedCheck _ _ => .pureOrTrustedCheck
  | .FetchSpan _ => .fetchSpan

/-- The generic-substitution key carried by a query (`FetchSpan` carries
none). -/
def SpecQuery.substKey : SpecQuery → Option SubstsRef
  | .FunctionDefEncoding _ substs => some substs
  | .FunctionCallEncoding query => some query.call_substs
  | .PureOrTrustedCheck _ substs => some substs
  | .FetchSpan _ => none

/-- The caller identity carried by a query (only call-site encoding queries
carry one). -/
def SpecQuery.callerPart : SpecQuery → Option DefId
  | .FunctionCallEncoding query => some query.caller_def_id
  | _ => none

/-! ## Purity / trust lookups and loop specifications
(`prusti-viper/src/encoder/mir/specifications/interface.rs`)

The refinement cache `Specifications::get_and_refine_proc_spec` and the
type `typed::ProcedureSpecification` live outside the sampled sources, so
the lookup is passed in as a function and the specification record is
modelled with exactly the accessors the sampled code uses. -/

/-- Modelled from the spec: the resolved contract record
(`ProcedureSpecification`, §3) as seen through the two accessors the
sampled code applies to it: `kind.is_pure()` (an optional purity verdict)
and `trusted.extract_with_selective_replacement()` (an optional trust
verdict). -/
structure ProcedureSpecification where
  kind_is_pure : Option Bool
  trusted : Option Bool
deriving DecidableEq, Repr

/-- `SpecificationsInterface::is_pure`: builds a `PureOrTrustedCheck` query
(defaulting the substitution to the identity substitution of the
definition) and maps a missing specification or a missing purity verdict
to `false`. -/
def is_pure (identity_substs : DefId → SubstsRef)
    (get_and_refine_proc_spec : SpecQuery → Option ProcedureSpecification)
    (def_id : DefId) (substs : Option SubstsRef) : Bool :=
  let substs := substs.getD (identity_substs def_id)
  let query := SpecQuery.PureOrTrustedCheck def_id substs
  ((get_and_refine_proc_spec query).map
    (fun spec => spec.kind_is_pure.getD false)).getD false

/-- `SpecificationsInterface::is_trusted`: same query as `is_pure`; a
missing specification or a missing trust verdict yields `false`. -/
def is_trusted (identity_substs : DefId → SubstsRef)
    (get_and_refine_proc_spec : SpecQuery → Option ProcedureSpecification)
    (def_id : DefId) (substs : Option SubstsRef) : Bool :=
  let substs := substs.getD (identity_substs def_id)
  let query := SpecQuery.PureOrTrustedCheck def_id substs
  ((get_and_refine_proc_spec query).bind
    (fun spec => spec.trusted)).getD false

/-- `SpecificationsInterface::get_loop_specs`: the `_substs` parameter is
bound but never used; the lookup consults the loop-specification table
under the definition identity only. -/
def get_loop_specs {LoopSpecification : Type}
    (get_loop_spec : DefId → Option LoopSpecification)
    (def_id : DefId) (_substs : SubstsRef) : Option LoopSpecification :=
  get_loop_spec def_id

/-! ## CFG optimization pipeline
(`prusti-common/src/vir/optimizations/methods/mod.rs`)

The six pass implementations (`purifier`, `quantifier_fixer`,
`empty_if_remover`, `var_remover`, `assert_remover`, `cfg_cleaner`) are in
sibling modules outside the sampled sources, so `optimize_method_encoding`
is embedded generically: the CFG type and the six `CfgMethod -> CfgMethod`
pass functions are parameters. The `log_method` calls are pure debugging
side effects with no influence on the returned CFG and are dropped. -/

/-- The six boolean pass toggles consulted by `optimize_method_encoding`
(fields of `config::Optimizations`, named after the passes they gate). -/
structure Optimizations where
  purify_vars : Bool
  fix_quantifiers : Bool
  remove_empty_if : Bool
  remove_unused_vars : Bool
  remove_trivial_assertions : Bool
  clean_cfg : Bool
deriving DecidableEq, Repr

/-- `optimize_method_encoding`, with the `apply!` macro expanded: each pass
runs on the current CFG exactly when its toggle is set, otherwise the CFG
is passed through unchanged. -/
def optimize_method_encoding {CfgMethod : Type}
    (purify_vars fix_quantifiers remove_empty_if remove_unused_vars
      remove_trivial_assertions clean_cfg : CfgMethod → CfgMethod)
    (optimizations : Optimizations) (cfg : CfgMethod) : CfgMethod :=
  let cfg := if optimizations.purify_vars then purify_vars cfg else cfg
  let cfg := if optimizations.fix_quantifiers then fix_quantifiers cfg else cfg
  let cfg := if optimizations.remove_empty_if then remove_empty_if cfg else cfg
  let cfg := if optimizations.remove_unused_vars then remove_unused_vars cfg else cfg
  let cfg := if optimizations.remove_trivial_assertions then remove_trivial_assertions cfg else cfg
  let cfg := if optimizations.clean_cfg then clean_cfg cfg else cfg
  cfg

/-- A single gated pass, as the spec describes the pipeline: applied only
if enabled by configuration, otherwise the identity. -/
def gatedPass {CfgMethod : Type} (enabled : Bool)
    (pass : CfgMethod → CfgMethod) (cfg : CfgMethod) : CfgMethod :=
  if enabled then pass cfg else cfg

/-! ## Server entry point (`prusti-server/src/driver.rs`)

`clap`'s handling of a `required(true)` argument (exit before any further
work when the argument is missing), Rust's `str::parse::<u16>` and the
`listen_on_port` service launcher are external to the sampled sources;
the `main` control flow around them is embedded with the argument value
and the launcher as parameters, and each `panic!`/`expect` exit modelled
as a distinguished fatal outcome. -/

/-- Models `str::parse::<u16>` as used for the port value: an optional
leading `+`, then at least one ASCII digit, rejecting values above
`u16::MAX` (65535). Implemented over the character list so that concrete
inputs evaluate by kernel reduction. -/
def parse_port (s : String) : Option Nat :=
  let chars :=
    match s.data with
    | '+' :: rest => rest
    | cs => cs
  if chars.isEmpty then none
  else if chars.all Char.isDigit then
    let n := chars.foldl (fun acc c => acc * 10 + (c.toNat - 48)) 0
    if n < 65536 then some n else none
  else none

/-- How a run of the server `main` ends: the server is started, or the
process dies at startup for one of the three fatal reasons. -/
inductive MainOutcome where
  | started
  | fatal_missing_port
  | fatal_invalid_port
  | fatal_listen_error
deriving DecidableEq, Repr

/-- `main` of the server driver: a missing required `--port` argument
aborts (clap, `required(true)`), an unparseable value aborts
(`.parse().expect(...)`), and a launcher error aborts (`panic!`); only
then does the process run the listener. -/
def main (port_arg : Option String)
    (listen_on_port : Nat → Except String Unit) : MainOutcome :=
  match port_arg with
  | none => .fatal_missing_port
  | some s =>
    match parse_port s with
    | none => .fatal_invalid_port
    | some port =>
      match listen_on_port port with
      | .ok _ => .started
      | .error _ => .fatal_listen_error

/-! ## Position manager and error contexts
(`prusti-viper/src/encoder/mir/errors/interface.rs`)

Positions are opaque identifiers; the default sentinel is `0` and
registered identifiers are allocated from `1` upwards. The position
manager backing `error_manager()` is outside the sampled sources and is
modelled from the spec (§3, §4.1). Spans and error contexts are opaque
keys and are embedded as naturals. -/

abbrev Span := Nat

abbrev ErrorCtxt := Nat

/-- A position identifier; `0` is the default sentinel
(`Position::is_default`). -/
abbrev Position := Nat

/-- Modelled from the spec: the Position Manager's table (§3, §4.1) —
opaque identifiers mapped to (source span, error context, def-id);
identifiers are allocated sequentially starting at `1`, and `0` is the
distinguished sentinel never resolvable to a span. -/
structure PositionManager where
  next_id : Nat
  table : List (Position × Span × ErrorCtxt × DefId)
deriving DecidableEq, Repr

/-- The manager at the start of a verification run: no registered
positions, first identifier to allocate is `1`. -/
def PositionManager.initial : PositionManager := ⟨1, []⟩

/-- Modelled from the spec: `register(span, error_context, def_id)`
allocates a new identifier, records span/context/def-id, returns it
(§4.1). -/
def PositionManager.register (m : PositionManager) (span : Span)
    (error_ctxt : ErrorCtxt) (def_id : DefId) : Position × PositionManager :=
  (m.next_id, ⟨m.next_id + 1, (m.next_id, span, error_ctxt, def_id) :: m.table⟩)

/-- Modelled from the spec: resolving a position yields its table entry;
the sentinel `0` and never-registered identifiers are unresolvable
(§4.1 `resolve`). -/
def PositionManager.lookup (m : PositionManager) (position : Position) :
    Option (Span × ErrorCtxt × DefId) :=
  if position = 0 then none
  else (m.table.find? (fun entry => entry.1 = position)).map (fun entry => entry.2)

/-- `PositionManager::get_span`: the span of a resolvable position. -/
def PositionManager.get_span (m : PositionManager) (position : Position) :
    Option Span :=
  (m.lookup position).map (fun entry => entry.1)

/-- `PositionManager::get_def_id`: the def-id of a resolvable position. -/
def PositionManager.get_def_id (m : PositionManager) (position : Position) :
    Option DefId :=
  (m.lookup position).map (fun entry => entry.2.2)

/-- Modelled from the spec: `set_surrounding_error_context` mints a fresh
position sharing the original position's span, tagged with the surrounding
error context (§3 "duplicate with new context", §4.1). -/
def PositionManager.set_surrounding_error_context (m : PositionManager)
    (position : Position) (error_ctxt : ErrorCtxt) : Position × PositionManager :=
  let span := (m.get_span position).getD 0
  let def_id := (m.get_def_id position).getD 0
  m.register span error_ctxt def_id

/-- Registers a whole batch of positions in order, returning the final
manager state; used to describe managers whose every entry came from
`register`. -/
def registerAll (m : PositionManager) :
    List (Span × ErrorCtxt × DefId) → PositionManager
  | [] => m
  | (span, error_ctxt, def_id) :: rest =>
      registerAll (m.register span error_ctxt def_id).2 rest

/-- Modelled from the spec: a `vir_high` expression as a tree of nodes each
carrying a position (§3 CfgMethod invariant: every expression carries a
position, possibly the sentinel). -/
inductive Expression where
  | local_var (var : Nat) (position : Position)
  | constant (value : Int) (position : Position)
  | unary_op (argument : Expression) (position : Position)
  | binary_op (left right : Expression) (position : Position)
  | conditional (guard then_expr else_expr : Expression) (position : Position)
deriving DecidableEq, Repr

/-- All positions occurring in an expression. -/
def Expression.positions : Expression → List Position
  | .local_var _ position => [position]
  | .constant _ position => [position]
  | .unary_op argument position => argument.positions ++ [position]
  | .binary_op left right position => left.positions ++ right.positions ++ [position]
  | .conditional guard then_expr else_expr position =>
      guard.positions ++ then_expr.positions ++ else_expr.positions ++ [position]

/-- The `fold_position` of the `ExpressionFolder` visitor in
`set_surrounding_error_context_for_expression`: the sentinel becomes
`default_position`, any other position gets a surrounding error context. -/
def fold_position (m : PositionManager) (default_position : Position)
    (error_ctxt : ErrorCtxt) (position : Position) : Position × PositionManager :=
  if position = 0 then (default_position, m)
  else m.set_surrounding_error_context position error_ctxt

/-- `set_surrounding_error_context_for_expression`: folds the expression,
applying `fold_position` to every position in it and threading the
position-manager state. -/
def set_surrounding_error_context_for_expression (m : PositionManager) :
    Expression → Position → ErrorCtxt → Expression × PositionManager
  | .local_var var position, default_position, error_ctxt =>
      let (position, m) := fold_position m default_position error_ctxt position
      (.local_var var position, m)
  | .constant value position, default_position, error_ctxt =>
      let (position, m) := fold_position m default_position error_ctxt position
      (.constant value position, m)
  | .unary_op argument position, default_position, error_ctxt =>
      let (argument, m) :=
        set_surrounding_error_context_for_expression m argument default_position error_ctxt
      let (position, m) := fold_position m default_position error_ctxt position
      (.unary_op argument position, m)
  | .binary_op left right position, default_position, error_ctxt =>
      let (left, m) :=
        set_surrounding_error_context_for_expression m left default_position error_ctxt
      let (right, m) :=
        set_surrounding_error_context_for_expression m right default_position error_ctxt
      let (position, m) := fold_position m default_position error_ctxt position
      (.binary_op left right position, m)
  | .conditional guard then_expr else_expr position, default_position, error_ctxt =>
      let (guard, m) :=
        set_surrounding_error_context_for_expression m guard default_position error_ctxt
      let (then_expr, m) :=
        set_surrounding_error_context_for_expression m then_expr default_position error_ctxt
      let (else_expr, m) :=
        set_surrounding_error_context_for_expression m else_expr default_position error_ctxt
      let (position, m) := fold_position m default_position error_ctxt position
      (.conditional guard then_expr else_expr position, m)

/-- Modelled from the spec: a `vir_high` statement carrying an expression
and its own position (§3: every statement carries a position). -/
inductive Statement where
  | assert (expression : Expression) (position : Position)
  | assume (expression : Expression) (position : Position)
  | assign (target : Nat) (expression : Expression) (position : Position)
deriving DecidableEq, Repr

/-- The `StatementFolder` visitor of `set_statement_error_ctxt`: the
statement's own positions get a surrounding error context, its expressions
are folded with `set_surrounding_error_context_for_expression`. -/
def fold_statement (m : PositionManager) (statement : Statement)
    (default_position : Position) (error_ctxt : ErrorCtxt) :
    Statement × PositionManager :=
  match statement with
  | .assert expression position =>
      let (expression, m) :=
        set_surrounding_error_context_for_expression m expression default_position error_ctxt
      let (position, m) := m.set_surrounding_error_context position error_ctxt
      (.assert expression position, m)
  | .assume expression position =>
      let (expression, m) :=
        set_surrounding_error_context_for_expression m expression default_position error_ctxt
      let (position, m) := m.set_surrounding_error_context position error_ctxt
      (.assume expression position, m)
  | .assign target expression position =>
      let (expression, m) :=
        set_surrounding_error_context_for_expression m expression default_position error_ctxt
      let (position, m) := m.set_surrounding_error_context position error_ctxt
      (.assign target expression position, m)

/-- `set_statement_error_ctxt`: registers the span as the default position
and folds the statement; always returns `Ok`. -/
def set_statement_error_ctxt (m : PositionManager) (statement : Statement)
    (span : Span) (error_ctxt : ErrorCtxt) (def_id : DefId) :
    Statement × PositionManager :=
  let (default_position, m) := m.register span error_ctxt def_id
  fold_statement m statement default_position error_ctxt

/-- `set_statement_error_ctxt_from_position`: resolves the span and def-id
of `span_position` via the position manager (`unwrap`, modelled as `none`
on panic) and delegates to `set_statement_error_ctxt`. -/
def set_statement_error_ctxt_from_position (m : PositionManager)
    (statement : Statement) (span_position : Position) (error_ctxt : ErrorCtxt) :
    Option (Statement × PositionManager) :=
  match m.get_span span_position, m.get_def_id span_position with
  | some span, some def_id =>
      some (set_statement_error_ctxt m statement span error_ctxt def_id)
  | _, _ => none

/-- A manager reached from `initial` by `n` `register` calls: the next
identifier is `n + 1` and exactly the identifiers `1..n` resolve. -/
def PositionManager.covers (m : PositionManager) (n : Nat) : Prop :=
  m.next_id = n + 1 ∧ ∀ p : Nat, (m.lookup p).isSome = true ↔ 1 ≤ p ∧ p ≤ n

/-! ## Theorems -/

theorem pm_initial_covers : PositionManager.initial.covers 0 := by
  constructor
  · rfl
  · intro p
    constructor
    · intro h
      by_cases hp : p = 0 <;>
        simp [PositionManager.lookup, PositionManager.initial, hp] at h
    · intro ⟨h1, h2⟩
      exact absurd (h1.trans h2) (by decide)

theorem pm_lookup_register (m : PositionManager) (span : Span)
    (error_ctxt : ErrorCtxt) (def_id : DefId) (p : Position) :
    ((m.register span error_ctxt def_id).2).lookup p =
      if p = 0 then none
      else if p = m.next_id then some (span, error_ctxt, def_id)
      else m.lookup p := by
  by_cases hp : p = 0
  · simp [PositionManager.lookup, hp]
  · by_cases hpn : p = m.next_id
    · simp [PositionManager.lookup, PositionManager.register, hp, hpn, List.find?]
    · have hpn2 : ¬(m.next_id = p) := fun hx => hpn hx.symm
      simp [PositionManager.lookup, PositionManager.register, hp, hpn, hpn2,
        List.find?]

theorem pm_register_covers (m : PositionManager) (n : Nat)
    (span : Span) (error_ctxt : ErrorCtxt) (def_id : DefId)
    (h : m.covers n) : (m.register span error_ctxt def_id).2.covers (n + 1) := by
  obtain ⟨hnext, hiff⟩ := h
  refine ⟨by simp [PositionManager.register, hnext], ?_⟩
  intro p
  rw [pm_lookup_register]
  by_cases hp : p = 0
  · simp [hp]
  · by_cases hpn : p = m.next_id
    · rw [if_neg hp, if_pos hpn]
      constructor
      · intro _
        rw [hpn, hnext]
        omega
      · intro _
        rfl
    · rw [if_neg hp, if_neg hpn, hiff p]
      have hne : p ≠ n + 1 := hnext ▸ hpn
      omega

theorem pm_registerAll_covers (ops : List (Span × ErrorCtxt × DefId)) :
    ∀ (m : PositionManager) (n : Nat), m.covers n →
      (registerAll m ops).covers (n + ops.length) := by
  induction ops with
  | nil => intro m n h; simpa [registerAll] using h
  | cons op rest ih =>
    intro m n h
    obtain ⟨span, error_ctxt, def_id⟩ := op
    have := ih (m.register span error_ctxt def_id).2 (n + 1)
      (pm_register_covers m n span error_ctxt def_id h)
    simpa [registerAll, Nat.add_assoc, Nat.add_comm 1 rest.length] using this

/-- Claim C1 counterexample: two call-site-encoding queries with the same
kind, the same `referred_def_id` and the same substitution key but
different callers are not cache-equal, refuting the claimed
characterisation of query equality. -/
theorem specQuery_caller_breaks_claimed_equality :
    (SpecQuery.FunctionCallEncoding ⟨0, 1, 0⟩).kind
      = (SpecQuery.FunctionCallEncoding ⟨0, 2, 0⟩).kind ∧
    (SpecQuery.FunctionCallEncoding ⟨0, 1, 0⟩).referred_def_id
      = (SpecQuery.FunctionCallEncoding ⟨0, 2, 0⟩).referred_def_id ∧
    (SpecQuery.FunctionCallEncoding ⟨0, 1, 0⟩).substKey
      = (SpecQuery.FunctionCallEncoding ⟨0, 2, 0⟩).substKey ∧
    SpecQuery.FunctionCallEncoding ⟨0, 1, 0⟩
      ≠ SpecQuery.FunctionCallEncoding ⟨0, 2, 0⟩ := by
  refine ⟨rfl, rfl, rfl, ?_⟩
  decide

/-- Claim C1 (amended): two queries are cache-equal iff their query kind,
definition identity, generic-substitution key and — for call-site-encoding
queries — caller identity are all equal; in particular, two
`FunctionDefEncoding` queries with the same definition but different
substitutions are unequal even though `referred_def_id` agrees, and
queries of distinct kinds are never equal. -/
theorem specQuery_cache_equality (q1 q2 : SpecQuery) :
    (q1 = q2 ↔
      q1.kind = q2.kind ∧ q1.referred_def_id = q2.referred_def_id ∧
      q1.substKey = q2.substKey ∧ q1.callerPart = q2.callerPart) ∧
    (∀ (d : DefId) (s1 s2 : SubstsRef), s1 ≠ s2 →
      (SpecQuery.FunctionDefEncoding d s1).referred_def_id
        = (SpecQuery.FunctionDefEncoding d s2).referred_def_id ∧
      SpecQuery.FunctionDefEncoding d s1 ≠ SpecQuery.FunctionDefEncoding d s2) ∧
    (q1.kind ≠ q2.kind → q1 ≠ q2) := by
  refine ⟨?_, ?_, ?_⟩
  · cases q1 <;> cases q2 <;>
      simp [SpecQuery.kind, SpecQuery.referred_def_id, SpecQuery.substKey,
        SpecQuery.callerPart, FunctionCallEncodingQuery.mk.injEq]
    rename_i query1 query2
    cases query1
    cases query2
    simp [FunctionCallEncodingQuery.mk.injEq]
    tauto
  · intro d s1 s2 h
    exact ⟨rfl, by simp [h]⟩
  · intro hk he
    exact hk (he ▸ rfl)

/-- Witness for the amended C1 theorem at concrete inputs. -/
theorem specQuery_cache_equality_witness :
    (SpecQuery.FunctionDefEncoding 3 1).referred_def_id
      = (SpecQuery.FunctionDefEncoding 3 2).referred_def_id ∧
    SpecQuery.FunctionDefEncoding 3 1 ≠ SpecQuery.FunctionDefEncoding 3 2 :=
  (specQuery_cache_equality (SpecQuery.FetchSpan 0) (SpecQuery.FetchSpan 0)).2.1
    3 1 2 (by decide)

/-- Claim C4: `adapt_to` keeps the query kind, re-anchors
`referred_def_id` to the new definition, preserves the caller identity of
a call-site-encoding query, and its result does not depend on the old
definition or old substitution of the query. -/
theorem adapt_to_rebinds_query (q q' : SpecQuery) (d : DefId) (s : SubstsRef) :
    (q.adapt_to d s).kind = q.kind ∧
    (q.adapt_to d s).referred_def_id = d ∧
    (q.adapt_to d s).callerPart = q.callerPart ∧
    (q.kind = q'.kind → q.callerPart = q'.callerPart →
      q.adapt_to d s = q'.adapt_to d s) := by
  cases q <;> cases q' <;>
    simp [SpecQuery.adapt_to, SpecQuery.kind, SpecQuery.referred_def_id,
      SpecQuery.callerPart, FunctionCallEncodingQuery.mk.injEq]

/-- Witness for C4: re-anchoring two call-encoding queries with the same
caller but different old definitions and substitutions gives the same
result. -/
theorem adapt_to_rebinds_query_witness :
    (SpecQuery.FunctionCallEncoding ⟨5, 7, 9⟩).adapt_to 1 2
      = (SpecQuery.FunctionCallEncoding ⟨3, 7, 4⟩).adapt_to 1 2 :=
  (adapt_to_rebinds_query (SpecQuery.FunctionCallEncoding ⟨5, 7, 9⟩)
    (SpecQuery.FunctionCallEncoding ⟨3, 7, 4⟩) 1 2).2.2.2 rfl rfl

/-- Claim C9: `get_loop_specs` ignores its substitution argument — the
loop-invariant lookup depends only on the definition identity. -/
theorem get_loop_specs_ignores_substs {LoopSpecification : Type}
    (get_loop_spec : DefId → Option LoopSpecification)
    (def_id : DefId) (s1 s2 : SubstsRef) :
    get_loop_specs get_loop_spec def_id s1
      = get_loop_specs get_loop_spec def_id s2 := rfl

/-- Claim C5: when the refined-specification lookup returns `None` for the
purity/trust query, both `is_pure` and `is_trusted` return `false`. -/
theorem no_specification_defaults_to_untrusted_impure
    (identity_substs : DefId → SubstsRef)
    (get_and_refine_proc_spec : SpecQuery → Option ProcedureSpecification)
    (def_id : DefId) (substs : Option SubstsRef)
    (h : get_and_refine_proc_spec
      (SpecQuery.PureOrTrustedCheck def_id
        (substs.getD (identity_substs def_id))) = none) :
    is_pure identity_substs get_and_refine_proc_spec def_id substs = false ∧
    is_trusted identity_substs get_and_refine_proc_spec def_id substs = false := by
  exact ⟨by simp [is_pure, h], by simp [is_trusted, h]⟩

/-- Witness for C5 with an empty specification map. -/
theorem no_specification_defaults_witness :
    is_pure (fun _ => 0) (fun _ => none) 4 none = false ∧
    is_trusted (fun _ => 0) (fun _ => none) 4 none = false :=
  no_specification_defaults_to_untrusted_impure (fun _ => 0) (fun _ => none)
    4 none rfl

/-- Claim C2: `optimize_method_encoding` is exactly the six-pass gated
pipeline in the fixed order variable purification, quantifier fixing,
empty-if removal, unused-variable removal, trivial-assertion removal, CFG
cleanup; each pass runs exactly when its flag is enabled, and with a flag
disabled the result does not depend on that pass at all — the CFG is
handed to the next pass unchanged. -/
theorem optimize_method_encoding_is_gated_pipeline {CfgMethod : Type}
    (purify_vars fix_quantifiers remove_empty_if remove_unused_vars
      remove_trivial_assertions clean_cfg : CfgMethod → CfgMethod)
    (o : Optimizations) (cfg : CfgMethod) :
    (optimize_method_encoding purify_vars fix_quantifiers remove_empty_if
        remove_unused_vars remove_trivial_assertions clean_cfg o cfg =
      gatedPass o.clean_cfg clean_cfg
        (gatedPass o.remove_trivial_assertions remove_trivial_assertions
          (gatedPass o.remove_unused_vars remove_unused_vars
            (gatedPass o.remove_empty_if remove_empty_if
              (gatedPass o.fix_quantifiers fix_quantifiers
                (gatedPass o.purify_vars purify_vars cfg)))))) ∧
    (o.purify_vars = false → ∀ g : CfgMethod → CfgMethod,
      optimize_method_encoding g fix_quantifiers remove_empty_if
        remove_unused_vars remove_trivial_assertions clean_cfg o cfg =
      optimize_method_encoding purify_vars fix_quantifiers remove_empty_if
        remove_unused_vars remove_trivial_assertions clean_cfg o cfg) ∧
    (o.fix_quantifiers = false → ∀ g : CfgMethod → CfgMethod,
      optimize_method_encoding purify_vars g remove_empty_if
        remove_unused_vars remove_trivial_assertions clean_cfg o cfg =
      optimize_method_encoding purify_vars fix_quantifiers remove_empty_if
        remove_unused_vars remove_trivial_assertions clean_cfg o cfg) ∧
    (o.remove_empty_if = false → ∀ g : CfgMethod → CfgMethod,
      optimize_method_encoding purify_vars fix_quantifiers g
        remove_unused_vars remove_trivial_assertions clean_cfg o cfg =
      optimize_method_encoding purify_vars fix_quantifiers remove_empty_if
        remove_unused_vars remove_trivial_assertions clean_cfg o cfg) ∧
    (o.remove_unused_vars = false → ∀ g : CfgMethod → CfgMethod,
      optimize_method_encoding purify_vars fix_quantifiers remove_empty_if
        g remove_trivial_assertions clean_cfg o cfg =
      optimize_method_encoding purify_vars fix_quantifiers remove_empty_if
        remove_unused_vars remove_trivial_assertions clean_cfg o cfg) ∧
    (o.remove_trivial_assertions = false → ∀ g : CfgMethod → CfgMethod,
      optimize_method_encoding purify_vars fix_quantifiers remove_empty_if
        remove_unused_vars g clean_cfg o cfg =
      optimize_method_encoding purify_vars fix_quantifiers remove_empty_if
        remove_unused_vars remove_trivial_assertions clean_cfg o cfg) ∧
    (o.clean_cfg = false → ∀ g : CfgMethod → CfgMethod,
      optimize_method_encoding purify_vars fix_quantifiers remove_empty_if
        remove_unused_vars remove_trivial_assertions g o cfg =
      optimize_method_encoding purify_vars fix_quantifiers remove_empty_if
        remove_unused_vars remove_trivial_assertions clean_cfg o cfg) := by
  refine ⟨rfl, ?_, ?_, ?_, ?_, ?_, ?_⟩ <;>
    (intro h g; simp [optimize_method_encoding, h])

/-- Witness for C2: with variable purification disabled, the pipeline
result is independent of the purification pass. -/
theorem optimize_method_encoding_is_gated_pipeline_witness :
    optimize_method_encoding (fun n => n + 100) (fun n => n * 2)
        (fun n => n * 2) (fun n => n * 2) (fun n => n * 2) (fun n => n * 2)
        ⟨false, true, true, true, true, true⟩ (1 : Nat) =
      optimize_method_encoding (fun n => n + 1) (fun n => n * 2)
        (fun n => n * 2) (fun n => n * 2) (fun n => n * 2) (fun n => n * 2)
        ⟨false, true, true, true, true, true⟩ (1 : Nat) :=
  (optimize_method_encoding_is_gated_pipeline (fun n => n + 1) (fun n => n * 2)
      (fun n => n * 2) (fun n => n * 2) (fun n => n * 2) (fun n => n * 2)
      ⟨false, true, true, true, true, true⟩ (1 : Nat)).2.1 rfl
    (fun n => n + 100)

/-- Claim C8: the server entry point requires exactly the port
configuration value: a missing or unparseable port aborts at startup
without consulting the listener, a listener-launch failure aborts at
startup, and the server starts only when the port parses and the listener
launches. -/
theorem server_startup_requires_valid_port
    (listen_on_port listen2 : Nat → Except String Unit)
    (s : String) (port : Nat) (msg : String) :
    main none listen_on_port = MainOutcome.fatal_missing_port ∧
    (parse_port s = none →
      main (some s) listen_on_port = MainOutcome.fatal_invalid_port ∧
      main (some s) listen_on_port = main (some s) listen2) ∧
    (parse_port s = some port → listen_on_port port = Except.error msg →
      main (some s) listen_on_port = MainOutcome.fatal_listen_error) ∧
    (main (some s) listen_on_port = MainOutcome.started →
      ∃ p : Nat, parse_port s = some p ∧ listen_on_port p = Except.ok ()) := by
  refine ⟨rfl, ?_, ?_, ?_⟩
  · intro h
    exact ⟨by simp [main, h], by simp [main, h]⟩
  · intro h1 h2
    simp [main, h1, h2]
  · intro h
    simp only [main] at h
    cases hp : parse_port s with
    | none => rw [hp] at h; simp at h
    | some p =>
      rw [hp] at h
      simp only [] at h
      cases hl : listen_on_port p with
      | ok u => cases u; exact ⟨p, rfl, hl⟩
      | error e =>
        rw [hl] at h
        simp at h

/-- Witness for C8: an unparseable port and a failing listener each abort
at startup. -/
theorem server_startup_requires_valid_port_witness :
    main (some "abc") (fun _ => Except.ok ()) = MainOutcome.fatal_invalid_port ∧
    main (some "80") (fun _ => Except.error "boom")
      = MainOutcome.fatal_listen_error :=
  ⟨((server_startup_requires_valid_port (fun _ => Except.ok ())
      (fun _ => Except.ok ()) "abc" 0 "").2.1 (by decide)).1,
    (server_startup_requires_valid_port (fun _ => Except.error "boom")
      (fun _ => Except.error "boom") "80" 80 "boom").2.2.1 (by decide) rfl⟩

/-- Claim C7: every position registered with the position manager and
distinct from the default sentinel resolves, so
`set_statement_error_ctxt_from_position` succeeds on it; a resolution
failure is possible only for the sentinel or a never-registered
identifier. -/
theorem registered_positions_resolve (ops : List (Span × ErrorCtxt × DefId))
    (statement : Statement) (error_ctxt : ErrorCtxt) (p : Nat)
    (h1 : 1 ≤ p) (h2 : p ≤ ops.length) :
    (set_statement_error_ctxt_from_position
      (registerAll PositionManager.initial ops) statement p error_ctxt).isSome
      = true ∧
    (∀ (q : Nat) (statement2 : Statement) (ctxt2 : ErrorCtxt),
      set_statement_error_ctxt_from_position
        (registerAll PositionManager.initial ops) statement2 q ctxt2 = none →
      q = 0 ∨ ops.length < q) := by
  have hcov : (registerAll PositionManager.initial ops).covers ops.length := by
    have h0 := pm_registerAll_covers ops PositionManager.initial 0 pm_initial_covers
    simpa using h0
  obtain ⟨hnext, hiff⟩ := hcov
  constructor
  · have hs := (hiff p).2 ⟨h1, h2⟩
    obtain ⟨v, hv⟩ := Option.isSome_iff_exists.1 hs
    obtain ⟨span, ectxt, def_id⟩ := v
    simp [set_statement_error_ctxt_from_position, PositionManager.get_span,
      PositionManager.get_def_id, hv]
  · intro q statement2 ctxt2 hnone
    by_cases hq0 : q = 0
    · exact Or.inl hq0
    · right
      by_contra hlt
      push_neg at hlt
      have hs := (hiff q).2 ⟨by omega, by omega⟩
      obtain ⟨v, hv⟩ := Option.isSome_iff_exists.1 hs
      obtain ⟨span, ectxt, def_id⟩ := v
      simp [set_statement_error_ctxt_from_position, PositionManager.get_span,
        PositionManager.get_def_id, hv] at hnone

/-- Witness for C7: with one registered position, position `1` resolves
and the statement fold succeeds. -/
theorem registered_positions_resolve_witness :
    (set_statement_error_ctxt_from_position
      (registerAll PositionManager.initial [(10, 20, 30)])
      (Statement.assert (Expression.constant 0 0) 0) 1 7).isSome = true :=
  (registered_positions_resolve [(10, 20, 30)]
    (Statement.assert (Expression.constant 0 0) 0) 7 1 (by decide)
    (by decide)).1

theorem fold_position_fresh (m : PositionManager) (dp : Nat)
    (ctxt : ErrorCtxt) (pos : Nat) (hm : 1 ≤ m.next_id) (hdp : dp ≠ 0) :
    (fold_position m dp ctxt pos).1 ≠ 0 ∧
    m.next_id ≤ (fold_position m dp ctxt pos).2.next_id := by
  by_cases h : pos = 0
  · simp [fold_position, h, hdp]
  · have e1 : (fold_position m dp ctxt pos).1 = m.next_id := by
      simp [fold_position, h, PositionManager.set_surrounding_error_context,
        PositionManager.register]
    have e2 : (fold_position m dp ctxt pos).2.next_id = m.next_id + 1 := by
      simp [fold_position, h, PositionManager.set_surrounding_error_context,
        PositionManager.register]
    rw [e1, e2]
    exact ⟨Nat.one_le_iff_ne_zero.mp hm, Nat.le_succ m.next_id⟩

theorem expr_fold_positions_fresh (e : Expression) :
    ∀ (m : PositionManager) (dp : Nat) (ctxt : ErrorCtxt),
      1 ≤ m.next_id → dp ≠ 0 →
      (∀ p ∈ ((set_surrounding_error_context_for_expression m e dp
        ctxt).1).positions, p ≠ 0) ∧
      m.next_id ≤ ((set_surrounding_error_context_for_expression m e dp
        ctxt).2).next_id := by
  induction e with
  | local_var v pos =>
    intro m dp ctxt hm hdp
    obtain ⟨h1, h2⟩ := fold_position_fresh m dp ctxt pos hm hdp
    constructor
    · intro p hp
      simp [set_surrounding_error_context_for_expression,
        Expression.positions] at hp
      rw [hp]
      exact h1
    · simp [set_surrounding_error_context_for_expression]
      exact h2
  | constant v pos =>
    intro m dp ctxt hm hdp
    obtain ⟨h1, h2⟩ := fold_position_fresh m dp ctxt pos hm hdp
    constructor
    · intro p hp
      simp [set_surrounding_error_context_for_expression,
        Expression.positions] at hp
      rw [hp]
      exact h1
    · simp [set_surrounding_error_context_for_expression]
      exact h2
  | unary_op arg pos ih =>
    intro m dp ctxt hm hdp
    rcases h1 : set_surrounding_error_context_for_expression m arg dp ctxt
      with ⟨arg2, m1⟩
    obtain ⟨harg_pos, harg_mono⟩ := ih m dp ctxt hm hdp
    rw [h1] at harg_pos harg_mono
    have hm1 : 1 ≤ m1.next_id := le_trans hm harg_mono
    rcases h2 : fold_position m1 dp ctxt pos with ⟨pos2, m2⟩
    obtain ⟨hp_ne, hp_mono⟩ := fold_position_fresh m1 dp ctxt pos hm1 hdp
    rw [h2] at hp_ne hp_mono
    have heq : set_surrounding_error_context_for_expression m
        (.unary_op arg pos) dp ctxt = (.unary_op arg2 pos2, m2) := by
      simp [set_surrounding_error_context_for_expression, h1, h2]
    rw [heq]
    constructor
    · intro p hp
      simp [Expression.positions] at hp
      rcases hp with hp | hp
      · exact harg_pos p hp
      · rw [hp]; exact hp_ne
    · exact le_trans harg_mono hp_mono
  | binary_op l r pos ihl ihr =>
    intro m dp ctxt hm hdp
    rcases h1 : set_surrounding_error_context_for_expression m l dp ctxt
      with ⟨l2, m1⟩
    obtain ⟨hl_pos, hl_mono⟩ := ihl m dp ctxt hm hdp
    rw [h1] at hl_pos hl_mono
    have hm1 : 1 ≤ m1.next_id := le_trans hm hl_mono
    rcases h2 : set_surrounding_error_context_for_expression m1 r dp ctxt
      with ⟨r2, m2⟩
    obtain ⟨hr_pos, hr_mono⟩ := ihr m1 dp ctxt hm1 hdp
    rw [h2] at hr_pos hr_mono
    have hm2 : 1 ≤ m2.next_id := le_trans hm1 hr_mono
    rcases h3 : fold_position m2 dp ctxt pos with ⟨pos2, m3⟩
    obtain ⟨hp_ne, hp_mono⟩ := fold_position_fresh m2 dp ctxt pos hm2 hdp
    rw [h3] at hp_ne hp_mono
    have heq : set_surrounding_error_context_for_expression m
        (.binary_op l r pos) dp ctxt = (.binary_op l2 r2 pos2, m3) := by
      simp [set_surrounding_error_context_for_expression, h1, h2, h3]
    rw [heq]
    constructor
    · intro p hp
      simp [Expression.positions] at hp
      rcases hp with hp | hp | hp
      · exact hl_pos p hp
      · exact hr_pos p hp
      · rw [hp]; exact hp_ne
    · exact le_trans hl_mono (le_trans hr_mono hp_mono)
  | conditional g t e pos ihg iht ihe =>
    intro m dp ctxt hm hdp
    rcases h1 : set_surrounding_error_context_for_expression m g dp ctxt
      with ⟨g2, m1⟩
    obtain ⟨hg_pos, hg_mono⟩ := ihg m dp ctxt hm hdp
    rw [h1] at hg_pos hg_mono
    have hm1 : 1 ≤ m1.next_id := le_trans hm hg_mono
    rcases h2 : set_surrounding_error_context_for_expression m1 t dp ctxt
      with ⟨t2, m2⟩
    obtain ⟨ht_pos, ht_mono⟩ := iht m1 dp ctxt hm1 hdp
    rw [h2] at ht_pos ht_mono
    have hm2 : 1 ≤ m2.next_id := le_trans hm1 ht_mono
    rcases h3 : set_surrounding_error_context_for_expression m2 e dp ctxt
      with ⟨e2, m3⟩
    obtain ⟨he_pos, he_mono⟩ := ihe m2 dp ctxt hm2 hdp
    rw [h3] at he_pos he_mono
    have hm3 : 1 ≤ m3.next_id := le_trans hm2 he_mono
    rcases h4 : fold_position m3 dp ctxt pos with ⟨pos2, m4⟩
    obtain ⟨hp_ne, hp_mono⟩ := fold_position_fresh m3 dp ctxt pos hm3 hdp
    rw [h4] at hp_ne hp_mono
    have heq : set_surrounding_error_context_for_expression m
        (.conditional g t e pos) dp ctxt
        = (.conditional g2 t2 e2 pos2, m4) := by
      simp [set_surrounding_error_context_for_expression, h1, h2, h3, h4]
    rw [heq]
    constructor
    · intro p hp
      simp [Expression.positions] at hp
      rcases hp with hp | hp | hp | hp
      · exact hg_pos p hp
      · exact ht_pos p hp
      · exact he_pos p hp
      · rw [hp]; exact hp_ne
    · exact le_trans hg_mono (le_trans ht_mono (le_trans he_mono hp_mono))

/-- Claim C10: with a non-default `default_position`, every position in
the expression produced by `set_surrounding_error_context_for_expression`
is non-default — the sentinel never survives; a sentinel position in the
input is replaced by `default_position` itself. -/
theorem expression_sentinel_never_survives (m : PositionManager)
    (e : Expression) (default_position : Nat) (error_ctxt : ErrorCtxt)
    (hm : 1 ≤ m.next_id) (hdp : default_position ≠ 0) :
    (∀ p ∈ ((set_surrounding_error_context_for_expression m e
        default_position error_ctxt).1).positions, p ≠ 0) ∧
    (∀ v : Nat,
      (set_surrounding_error_context_for_expression m (.local_var v 0)
        default_position error_ctxt).1
        = .local_var v default_position) := by
  constructor
  · exact (expr_fold_positions_fresh e m default_position error_ctxt hm hdp).1
  · intro v
    simp [set_surrounding_error_context_for_expression, fold_position]

/-- Witness for C10: starting from a fresh manager, a sentinel leaf
position becomes the (non-default) default position. -/
theorem expression_sentinel_never_survives_witness :
    (set_surrounding_error_context_for_expression PositionManager.initial
      (Expression.local_var 3 0) 1 2).1 = Expression.local_var 3 1 :=
  (expression_sentinel_never_survives PositionManager.initial
    (Expression.local_var 3 0) 1 2 (by decide) (by decide)).2 3

end Spec2Proof
